import Mathlib

/-!
Shallow embedding of the miniminds agent framework: the agent execution
loop and tool-dispatch subsystem (`agent/base.py`, the two unit-tester
agents, the Groq backend adapter, the builtin file/code/json tools and the
`@tool` decorator), together with proofs of the specification claims.
Python dictionaries with fixed key sets become structures, `json.loads`
becomes a fuel-based recursive-descent parser over `Char` lists, raised
exceptions become `Except PyExc`, and try/except blocks become explicit
matches on that `Except`.
-/

set_option autoImplicit false

namespace Miniminds

/-- Python exceptions that the embedded code can raise or catch.
`jsonDecodeError` models `json.JSONDecodeError`, which is a subclass of
`ValueError` in Python; `isValueErrorClass` records that subclass fact. -/
inductive PyExc where
  | valueError (msg : String)
  | typeError (msg : String)
  | jsonDecodeError (msg : String)
  | attributeError (msg : String)
  | otherExc (msg : String)
  deriving DecidableEq, Repr

/-- The message of an exception, i.e. Python `str(e)`. -/
def PyExc.msg : PyExc → String
  | .valueError m => m
  | .typeError m => m
  | .jsonDecodeError m => m
  | .attributeError m => m
  | .otherExc m => m

/-- Whether `except ValueError` catches this exception: `ValueError` itself
or its subclass `json.JSONDecodeError`. -/
def PyExc.isValueErrorClass : PyExc → Bool
  | .valueError _ => true
  | .jsonDecodeError _ => true
  | _ => false

/-- Values produced by `json.loads`.  Numbers keep their raw lexeme (the
claims never inspect numeric values, only parse success and the shapes of
objects, strings and booleans). -/
inductive Json where
  | null
  | bool (b : Bool)
  | num (raw : String)
  | str (s : String)
  | arr (elems : List Json)
  | obj (fields : List (String × Json))
  deriving Repr

mutual

/-- Boolean equality on `Json`. -/
def Json.beq : Json → Json → Bool
  | .null, .null => true
  | .bool a, .bool b => a = b
  | .num a, .num b => a = b
  | .str a, .str b => a = b
  | .arr a, .arr b => Json.beqList a b
  | .obj a, .obj b => Json.beqFields a b
  | _, _ => false

/-- Boolean equality on lists of `Json`. -/
def Json.beqList : List Json → List Json → Bool
  | [], [] => true
  | a :: as, b :: bs => Json.beq a b && Json.beqList as bs
  | _, _ => false

/-- Boolean equality on `Json` object fields. -/
def Json.beqFields : List (String × Json) → List (String × Json) → Bool
  | [], [] => true
  | (ka, va) :: as, (kb, vb) :: bs => ka = kb && Json.beq va vb && Json.beqFields as bs
  | _, _ => false

end

mutual

theorem Json.beq_iff : ∀ a b : Json, Json.beq a b = true ↔ a = b
  | .null, b => by cases b <;> simp [Json.beq]
  | .bool x, b => by cases b <;> simp [Json.beq]
  | .num x, b => by cases b <;> simp [Json.beq]
  | .str x, b => by cases b <;> simp [Json.beq]
  | .arr xs, b => by
      cases b <;> simp [Json.beq]
      exact Json.beqList_iff xs _
  | .obj xs, b => by
      cases b <;> simp [Json.beq]
      exact Json.beqFields_iff xs _

theorem Json.beqList_iff : ∀ as bs : List Json, Json.beqList as bs = true ↔ as = bs
  | [], bs => by cases bs <;> simp [Json.beqList]
  | a :: as, bs => by
      cases bs with
      | nil => simp [Json.beqList]
      | cons b bs =>
          simp [Json.beqList, Bool.and_eq_true, Json.beq_iff a b, Json.beqList_iff as bs]

theorem Json.beqFields_iff :
    ∀ as bs : List (String × Json), Json.beqFields as bs = true ↔ as = bs
  | [], bs => by cases bs <;> simp [Json.beqFields]
  | (ka, va) :: as, bs => by
      cases bs with
      | nil => simp [Json.beqFields]
      | cons b bs =>
          obtain ⟨kb, vb⟩ := b
          simp [Json.beqFields, Bool.and_eq_true, Json.beq_iff va vb,
            Json.beqFields_iff as bs, and_assoc]

end

instance : DecidableEq Json := fun a b =>
  decidable_of_iff (Json.beq a b = true) (Json.beq_iff a b)

/-- Python `dict` built from JSON object fields keeps the last occurrence of
a duplicated key, so `data.get(k)` is a lookup of the last binding. -/
def Json.objGetLast (fields : List (String × Json)) (k : String) : Option Json :=
  (fields.reverse.find? (fun kv => kv.1 = k)).map (fun kv => kv.2)

/-- Whitespace characters skipped by the JSON grammar. -/
def jsonIsWs (c : Char) : Bool :=
  c = ' ' || c = '\t' || c = '\n' || c = '\r'

/-- Skip JSON whitespace. -/
def skipWs : List Char → List Char
  | [] => []
  | c :: cs => if jsonIsWs c then skipWs cs else c :: cs

/-- Whether `pat` is an initial segment of `s`. -/
def leadsWith : List Char → List Char → Bool
  | [], _ => true
  | _ :: _, [] => false
  | p :: ps, c :: cs => p = c && leadsWith ps cs

/-- Value of a hexadecimal digit. -/
def hexVal (c : Char) : Option Nat :=
  if '0' ≤ c ∧ c ≤ '9' then some (c.toNat - '0'.toNat)
  else if 'a' ≤ c ∧ c ≤ 'f' then some (c.toNat - 'a'.toNat + 10)
  else if 'A' ≤ c ∧ c ≤ 'F' then some (c.toNat - 'A'.toNat + 10)
  else none

/-- Lex a JSON number (including the `NaN`/`Infinity` extensions Python's
`json.loads` accepts by default); returns the raw lexeme and the rest. -/
def lexNumber (cs : List Char) : Option (String × List Char) :=
  let signed : Bool × List Char :=
    match cs with
    | '-' :: rest => (true, rest)
    | _ => (false, cs)
  let rest := signed.2
  if leadsWith ['I', 'n', 'f', 'i', 'n', 'i', 't', 'y'] rest then
    some ((if signed.1 then "-Infinity" else "Infinity"), rest.drop 8)
  else
    let intPart : Option (List Char × List Char) :=
      match rest with
      | '0' :: r => some (['0'], r)
      | c :: _ =>
          if c.isDigit then
            some (rest.takeWhile Char.isDigit, rest.dropWhile Char.isDigit)
          else none
      | [] => none
    match intPart with
    | none => none
    | some (ip, r1) =>
        let fracPart : Option (List Char × List Char) :=
          match r1 with
          | '.' :: r2 =>
              let ds := r2.takeWhile Char.isDigit
              if ds.isEmpty then none
              else some ('.' :: ds, r2.dropWhile Char.isDigit)
          | _ => some ([], r1)
        match fracPart with
        | none => none
        | some (fp, r2) =>
            let expPart : Option (List Char × List Char) :=
              match r2 with
              | e :: r3 =>
                  if e = 'e' ∨ e = 'E' then
                    let body : List Char × List Char :=
                      match r3 with
                      | s :: r4 => if s = '+' ∨ s = '-' then ([s], r4) else ([], r3)
                      | [] => ([], r3)
                    let ds := body.2.takeWhile Char.isDigit
                    if ds.isEmpty then none
                    else some (e :: (body.1 ++ ds), body.2.dropWhile Char.isDigit)
                  else some ([], r2)
              | [] => some ([], r2)
            match expPart with
            | none => none
            | some (ep, r3) =>
                some (String.mk ((if signed.1 then ['-'] else []) ++ ip ++ fp ++ ep), r3)

mutual

/-- Parse one JSON value after skipping leading whitespace (recursive descent
with fuel; every recursive call consumes input, so fuel of the input length
plus one always suffices). -/
def parseValue (fuel : Nat) (cs : List Char) : Option (Json × List Char) :=
  match fuel with
  | 0 => none
  | fuel + 1 =>
      match skipWs cs with
      | [] => none
      | c :: rest =>
          if c = 'n' then
            if leadsWith ['u', 'l', 'l'] rest then some (.null, rest.drop 3) else none
          else if c = 't' then
            if leadsWith ['r', 'u', 'e'] rest then some (.bool true, rest.drop 3) else none
          else if c = 'f' then
            if leadsWith ['a', 'l', 's', 'e'] rest then some (.bool false, rest.drop 4)
            else none
          else if c = 'N' then
            if leadsWith ['a', 'N'] rest then some (.num "NaN", rest.drop 2) else none
          else if c = '"' then
            match lexString fuel [] rest with
            | some (s, r) => some (.str s, r)
            | none => none
          else if c = '[' then
            match skipWs rest with
            | ']' :: r => some (.arr [], r)
            | r => match parseElems fuel r with
                   | some (es, r2) => some (.arr es, r2)
                   | none => none
          else if c = '\x7b' then
            match skipWs rest with
            | '\x7d' :: r => some (.obj [], r)
            | r => match parseFields fuel r with
                   | some (fs, r2) => some (.obj fs, r2)
                   | none => none
          else
            match lexNumber (c :: rest) with
            | some (raw, r) => some (.num raw, r)
            | none => none

/-- Parse the body of a JSON string after the opening quote. -/
def lexString (fuel : Nat) (acc : List Char) (cs : List Char) : Option (String × List Char) :=
  match fuel with
  | 0 => none
  | fuel + 1 =>
      match cs with
      | [] => none
      | '"' :: rest => some (String.mk acc.reverse, rest)
      | '\\' :: e :: rest =>
          if e = 'u' then
            match rest with
            | h1 :: h2 :: h3 :: h4 :: rest4 =>
                match hexVal h1, hexVal h2, hexVal h3, hexVal h4 with
                | some a, some b, some c, some d =>
                    lexString fuel (Char.ofNat (((a * 16 + b) * 16 + c) * 16 + d) :: acc) rest4
                | _, _, _, _ => none
            | _ => none
          else
            let esc : Option Char :=
              if e = '"' then some '"'
              else if e = '\\' then some '\\'
              else if e = '/' then some '/'
              else if e = 'b' then some '\x08'
              else if e = 'f' then some '\x0c'
              else if e = 'n' then some '\n'
              else if e = 'r' then some '\r'
              else if e = 't' then some '\t'
              else none
            match esc with
            | some ch => lexString fuel (ch :: acc) rest
            | none => none
      | c :: rest =>
          if c.toNat < 32 then none else lexString fuel (c :: acc) rest

/-- Parse the elements of a non-empty JSON array up to and including `]`. -/
def parseElems (fuel : Nat) (cs : List Char) : Option (List Json × List Char) :=
  match fuel with
  | 0 => none
  | fuel + 1 =>
      match parseValue fuel cs with
      | none => none
      | some (v, rest) =>
          match skipWs rest with
          | ',' :: r =>
              match parseElems fuel r with
              | some (es, r2) => some (v :: es, r2)
              | none => none
          | ']' :: r => some ([v], r)
          | _ => none

/-- Parse the fields of a non-empty JSON object up to and including the
closing brace. -/
def parseFields (fuel : Nat) (cs : List Char) : Option (List (String × Json) × List Char) :=
  match fuel with
  | 0 => none
  | fuel + 1 =>
      match skipWs cs with
      | '"' :: r =>
          match lexString fuel [] r with
          | none => none
          | some (k, r1) =>
              match skipWs r1 with
              | ':' :: r2 =>
                  match parseValue fuel r2 with
                  | none => none
                  | some (v, r3) =>
                      match skipWs r3 with
                      | ',' :: r4 =>
                          match parseFields fuel r4 with
                          | some (fs, r5) => some ((k, v) :: fs, r5)
                          | none => none
                      | '\x7d' :: r4 => some ([(k, v)], r4)
                      | _ => none
              | _ => none
      | _ => none

end

/-- Embedding of `json.loads` on a string argument: parse one JSON value and
require only whitespace after it.  All parse failures are
`json.JSONDecodeError` (a subclass of `ValueError`). -/
def pyJsonLoads (s : String) : Except PyExc Json :=
  match parseValue (s.length + 1) s.data with
  | none => .error (.jsonDecodeError ("Expecting value: " ++ s))
  | some (v, rest) =>
      if (skipWs rest).isEmpty then .ok v
      else .error (.jsonDecodeError ("Extra data: " ++ s))

mutual

/-- Python `repr` of a JSON-shaped value (the rendering used for elements
inside containers).  Strings are rendered with surrounding single quotes;
the escaping Python applies inside quotes is not modelled, and numbers print
their lexeme. -/
def pyRepr : Json → String
  | .null => "None"
  | .bool true => "True"
  | .bool false => "False"
  | .num raw => raw
  | .str s => "'" ++ s ++ "'"
  | .arr es => "[" ++ pyReprList es ++ "]"
  | .obj fs => "\x7b" ++ pyReprFields fs ++ "\x7d"

/-- Comma-separated `repr` of list elements. -/
def pyReprList : List Json → String
  | [] => ""
  | [v] => pyRepr v
  | v :: vs => pyRepr v ++ ", " ++ pyReprList vs

/-- Comma-separated `repr` of dict entries. -/
def pyReprFields : List (String × Json) → String
  | [] => ""
  | [(k, v)] => "'" ++ k ++ "': " ++ pyRepr v
  | (k, v) :: fs => "'" ++ k ++ "': " ++ pyRepr v ++ ", " ++ pyReprFields fs

end

/-- Python `str` of a value: a top-level string prints without quotes, every
other value prints as its `repr`. -/
def pyStr : Json → String
  | .str s => s
  | v => pyRepr v

/-- Characters removed by Python `str.strip()` (the ASCII whitespace set). -/
def pyIsStripWs (c : Char) : Bool :=
  c = ' ' || c = '\t' || c = '\n' || c = '\r' || c = '\x0b' || c = '\x0c'

/-- Embedding of Python `str.strip()`. -/
def pyStrip (s : String) : String :=
  String.mk (((s.data.dropWhile pyIsStripWs).reverse.dropWhile pyIsStripWs).reverse)

/-- Embedding of Python `str.lower()` (ASCII case folding). -/
def pyLower (s : String) : String :=
  String.mk (s.data.map Char.toLower)

/-- Whether `pat` occurs as a contiguous run inside `s`. -/
def hasSub (pat : List Char) : List Char → Bool
  | [] => leadsWith pat []
  | c :: cs => leadsWith pat (c :: cs) || hasSub pat cs

/-- Embedding of the Python substring test `pat in s`. -/
def pyInStr (pat s : String) : Bool :=
  hasSub pat.data s.data

/-- The rest after the first newline, when there is one. -/
def afterFirstNL : List Char → Option (List Char)
  | [] => none
  | c :: cs => if c = '\n' then some cs else afterFirstNL cs

/-- Embedding of `s.split("\n", 1)[-1]`: everything after the first newline,
or the whole string when it has no newline. -/
def dropFirstLine (s : List Char) : List Char :=
  (afterFirstNL s).getD s

/-- Embedding of `s.rsplit("\n", 1)[0]`: everything before the last newline,
or the whole string when it has no newline. -/
def dropLastLine (s : List Char) : List Char :=
  match afterFirstNL s.reverse with
  | some r => r.reverse
  | none => s

/-- The backtick character (code 96). -/
def backtick : Char := Char.ofNat 96

/-- Markdown-fence cleanup from `ScratchpadUnitTesterAgent.run`: when the
stripped content starts with three backticks, drop its first and its last
line. -/
def stripFenceLines (clean : String) : String :=
  if leadsWith [backtick, backtick, backtick] clean.data then
    String.mk (dropLastLine (dropFirstLine clean.data))
  else clean

/-- One entry of an assistant message's `tool_calls` list: the `function`
sub-dict of a Groq tool call, holding the tool name and the serialized
argument payload. -/
structure ToolCallFunction where
  name : String
  arguments : String
  deriving DecidableEq, Repr

/-- A tool-call request as dumped by the backend: correlation id plus the
called function. -/
structure ToolCall where
  id : String
  function : ToolCallFunction
  deriving DecidableEq, Repr

/-- One history entry, the dict built by `BaseAgentState.add_message` or by
`Agent.call_tool`: role and content always present, `tool_call_id` present
on tool messages and `tool_calls` present on assistant messages. -/
structure Message where
  role : String
  content : Option String
  tool_call_id : Option String
  tool_calls : Option (List ToolCall)
  deriving DecidableEq, Repr

/-- A message carrying only a role and content. -/
def chatMsg (role : String) (content : Option String) : Message :=
  ⟨role, content, none, none⟩

/-- `BaseAgentState`: the evolving state of an agent's execution. -/
structure AgentState where
  messages : List Message
  is_finished : Bool
  iteration : Nat
  deriving DecidableEq, Repr

/-- `BaseAgentState.add_message`: build the message dict and append it; the
`**extra` keyword arguments used in the repository are `tool_call_id` and
`tool_calls`. -/
def addMessage (s : AgentState) (role : String) (content : Option String)
    (tcid : Option String) (tcs : Option (List ToolCall)) : AgentState :=
  { s with messages := s.messages ++ [⟨role, content, tcid, tcs⟩] }

/-- A registered tool implementation: applied to its parsed keyword
arguments, it returns a value or raises. -/
def ToolFn := Json → Except PyExc Json

/-- Modelled from the spec: `ToolRegistry` (`tools/registry.py` is not under
`src/`) owns a mapping from name to tool; later entries model later
registrations. -/
def ToolRegistry := List (String × ToolFn)

/-- Modelled from the spec: `ToolRegistry.get`, `lookup(name) ->
ToolDescriptor | not-found`. -/
def regGet (reg : ToolRegistry) (name : String) : Option ToolFn :=
  (reg.find? (fun kv => kv.1 = name)).map (fun kv => kv.2)

/-- The `try` block of `Agent.call_tool`: parse the serialized arguments,
look the tool up (raising `ValueError` when absent, as the code does),
unpack the arguments (Python `f(**args)` raises `TypeError` when the parsed
payload is not a mapping) and invoke the tool. -/
def callToolBody (reg : ToolRegistry) (tc : ToolCall) : Except PyExc Json :=
  match pyJsonLoads tc.function.arguments with
  | .error e => .error e
  | .ok args =>
      match regGet reg tc.function.name with
      | none => .error (.valueError ("Tool " ++ tc.function.name ++ " not found"))
      | some f =>
          match args with
          | .obj _ => f args
          | _ => .error (.typeError "argument after ** must be a mapping")

/-- `Agent.call_tool`: run the body and convert any exception into a tool
message whose content describes the error; on success the content is the
stringified tool result. -/
def call_tool (reg : ToolRegistry) (tc : ToolCall) : Message :=
  match callToolBody reg tc with
  | .ok result => ⟨"tool", some (pyStr result), some tc.id, none⟩
  | .error e => ⟨"tool", some ("Error executing tool: " ++ e.msg), some tc.id, none⟩

/-- The normalized backend response consumed by `run`: optional content and
an optional tool-call list. -/
structure LLMResponse where
  content : Option String
  tool_calls : Option (List ToolCall)
  deriving DecidableEq, Repr

/-- The generation backend as seen by `run` via `llm_generate`: a function
from the current history to a response. -/
def LLM := List Message → LLMResponse

/-- The finish test of `SimpleUnitTesterAgent.run`: the lowercased content
contains both `"finished"` and `"message"` as substrings. -/
def v1Finished (content : String) : Bool :=
  pyInStr "finished" (pyLower content) && pyInStr "message" (pyLower content)

/-- The `try` block of the stop-condition check in
`ScratchpadUnitTesterAgent.run`: strip the content, remove fenced-code
markers, parse JSON (raising `JSONDecodeError` on failure), then test
`data.get("finished") is True` (raising `AttributeError` when the parsed
value is not a dict). -/
def checkStopBody (content : String) : Except PyExc Bool :=
  let clean := stripFenceLines (pyStrip content)
  match pyJsonLoads clean with
  | .error e => .error e
  | .ok (.obj fields) => .ok (Json.objGetLast fields "finished" = some (.bool true))
  | .ok _ => .error (.attributeError "object has no attribute get")

/-- The finish test of `ScratchpadUnitTesterAgent.run`: the body's outcome,
with both `except` clauses (JSON decode errors and any other exception)
treated as "not finished". -/
def v2Finished (content : String) : Bool :=
  match checkStopBody content with
  | .ok b => b
  | .error _ => false

/-- `SimpleUnitTesterAgent.run`: generate, append the assistant message,
test the substring finish condition, then dispatch each requested tool call
in order and append its result (`if tool_calls:` skips a `None` or empty
list, which appends nothing either way). -/
def runV1 (reg : ToolRegistry) (llm : LLM) (s : AgentState) : AgentState :=
  let response := llm s.messages
  let s1 := addMessage s "assistant" response.content none response.tool_calls
  let content := response.content.getD ""
  let s2 := if v1Finished content then { s1 with is_finished := true } else s1
  let tcs := response.tool_calls.getD []
  { s2 with messages := s2.messages ++ tcs.map (call_tool reg) }

/-- Roles kept by the scratchpad history reset. -/
def keepPersistent (m : Message) : Bool :=
  m.role = "system" || m.role = "user"

/-- `ScratchpadUnitTesterAgent.run`: generate, default content to `""` and
tool calls to `[]`, keep only system/user messages, append the assistant
message, test the JSON finish condition, then dispatch each requested tool
call in order and append its result. -/
def runV2 (reg : ToolRegistry) (llm : LLM) (s : AgentState) : AgentState :=
  let response := llm s.messages
  let content := response.content.getD ""
  let tcs := response.tool_calls.getD []
  let s1 := { s with messages := s.messages.filter keepPersistent }
  let s2 := addMessage s1 "assistant" (some content) none (some tcs)
  let s3 := if v2Finished content then { s2 with is_finished := true } else s2
  { s3 with messages := s3.messages ++ tcs.map (call_tool reg) }

/-- The `state.iteration += 1` performed after each `run`. -/
def bumpIteration (s : AgentState) : AgentState :=
  { s with iteration := s.iteration + 1 }

/-- The `while` loop of `Agent.iterate`, with explicit fuel; returns the
final state together with the number of `run` calls performed. -/
def iterLoop (run : AgentState → AgentState) (maxIter : Nat) :
    Nat → AgentState → AgentState × Nat
  | 0, s => (s, 0)
  | fuel + 1, s =>
      if s.is_finished = false ∧ s.iteration < maxIter then
        let r := iterLoop run maxIter fuel (bumpIteration (run s))
        (r.1, r.2 + 1)
      else (s, 0)

/-- `Agent.iterate` after `start_point`: loop while the state is unfinished
and the iteration counter is below `max_iterations`.  Fuel `maxIter + 1` is
shown sufficient (the loop is never cut short by it) whenever `run`
preserves the iteration counter, as both repository agents do. -/
def iterate (run : AgentState → AgentState) (maxIter : Nat) (s0 : AgentState) :
    AgentState × Nat :=
  iterLoop run maxIter (maxIter + 1) s0

/-- `SimpleUnitTesterAgent.start_point`: `state = self.inital_state` takes
the shared template itself (no copy), appends the user message in place and
returns it; the first component is the agent's `inital_state` after the
call and the second the returned state — the same object. -/
def startPointV1 (inital : AgentState) (q : String) : AgentState × AgentState :=
  let s := addMessage inital "user" (some q) none none
  (s, s)

/-- `ScratchpadUnitTesterAgent.start_point`: `model_copy(deep=True)` leaves
the template untouched and returns a fresh state with the user message
appended. -/
def startPointV2 (inital : AgentState) (q : String) : AgentState × AgentState :=
  (inital, addMessage inital "user" (some q) none none)

/-- The `inital_state` template built by either agent constructor: one
system message holding the formatted prompt. -/
def initialTemplate (sysPrompt : String) : AgentState :=
  ⟨[chatMsg "system" (some sysPrompt)], false, 0⟩

/-- Exceptions at the backend adapter boundary: `BadRequestError` carries
the `code` and `message` of its JSON error body (the shape the Groq SDK
reports for 400 responses); every other SDK/transport/auth failure is
`apiOther`. -/
inductive GroqExc where
  | badRequest (code : Option String) (message : Option String)
  | apiOther (desc : String)
  deriving DecidableEq, Repr

/-- The fields of `response.choices[0].message` that `generate` extracts,
also used as the shape of the dict it returns. -/
structure ChatMessage where
  role : String
  content : Option String
  tool_calls : Option (List ToolCall)
  deriving DecidableEq, Repr

/-- Python `str` rendering of an optional string inside an f-string:
`None` prints as `"None"`. -/
def pyStrOfOpt : Option String → String
  | some s => s
  | none => "None"

/-- `GroqClient.generate` over the outcome of the provider call: on success
extract role/content and the tool calls when non-empty (`if
msg_obj.tool_calls:` omits the key for `None` or `[]`); on
`BadRequestError` with code `tool_use_failed` degrade to a plain assistant
message; re-raise every other `BadRequestError` and let every non-400
exception propagate uncaught. -/
def groqGenerate (outcome : Except GroqExc ChatMessage) : Except GroqExc ChatMessage :=
  match outcome with
  | .ok msg =>
      .ok { role := msg.role, content := msg.content,
            tool_calls :=
              match msg.tool_calls with
              | some (tc :: rest) => some (tc :: rest)
              | _ => none }
  | .error (.badRequest code message) =>
      if code = some "tool_use_failed" then
        .ok { role := "assistant",
              content := some ("System Error: The model failed to generate a valid tool call. Raw Error: "
                ++ pyStrOfOpt message),
              tool_calls := none }
      else .error (.badRequest code message)
  | .error (.apiOther d) => .error (.apiOther d)

/-- A filesystem path, as its list of components (`pathlib.Path.parts`
without the root). -/
def FsPath := List String
deriving DecidableEq, Repr

/-- Render a path the way `str(p)` does on a relative posix path. -/
def showPath (p : FsPath) : String :=
  String.intercalate "/" p

/-- The filesystem state the builtin file tools act on: regular files with
their text content, and directories. -/
structure FS where
  files : List (FsPath × String)
  dirs : List FsPath
  deriving DecidableEq, Repr

/-- `Path.is_file()`. -/
def isFile (fs : FS) (p : FsPath) : Bool :=
  (fs.files.find? (fun kv => kv.1 = p)).isSome

/-- `Path.is_dir()`. -/
def isDir (fs : FS) (p : FsPath) : Bool :=
  fs.dirs.contains p

/-- `Path.exists()`. -/
def fsExists (fs : FS) (p : FsPath) : Bool :=
  isFile fs p || isDir fs p

/-- `Path.read_text()` on an existing file. -/
def readContent (fs : FS) (p : FsPath) : String :=
  (((fs.files.find? (fun kv => kv.1 = p))).map (fun kv => kv.2)).getD ""

/-- Whether `q` lies strictly below directory `p`. -/
def properUnder (p q : FsPath) : Bool :=
  match p, q with
  | [], [] => false
  | [], _ :: _ => true
  | _ :: _, [] => false
  | b :: bs, c :: cs => b = c && properUnder bs cs

/-- Every registered path (files and directories). -/
def allPaths (fs : FS) : List FsPath :=
  fs.files.map (fun kv => kv.1) ++ fs.dirs

/-- The non-empty ancestors of a path, shortest first, the path itself
last. -/
def ancestorsOf (p : FsPath) : List FsPath :=
  (List.range p.length).map (fun n => p.take (n + 1))

/-- `Path.mkdir(parents=True, exist_ok=True)`: register the directory and
all its ancestors. -/
def addDirTree (fs : FS) (p : FsPath) : FS :=
  { fs with dirs := fs.dirs ++ (ancestorsOf p).filter (fun q => fs.dirs.contains q = false) }

/-- `Path.write_text`: create or overwrite a file's content. -/
def setFile (fs : FS) (p : FsPath) (content : String) : FS :=
  if isFile fs p then
    { fs with files := fs.files.map (fun kv => if kv.1 = p then (p, content) else kv) }
  else
    { fs with files := fs.files ++ [(p, content)] }

/-- The `{success, result|error}` payload every builtin file and code tool
returns. -/
structure SResult where
  success : Bool
  result : Option Json
  error : Option String
  deriving DecidableEq, Repr

/-- A success payload. -/
def okResult (v : Json) : SResult := ⟨true, some v, none⟩

/-- A failure payload. -/
def errResult (msg : String) : SResult := ⟨false, none, some msg⟩

/-- `list_directory_files` from `file_tools.py`: error when the base path
does not exist, else every registered path strictly below the base whose
relative depth is at most `depth` (the iteration order of the model
filesystem stands in for the OS-dependent `rglob` order). -/
def list_directory_files (fs : FS) (path : FsPath) (depth : Int) : SResult :=
  if fsExists fs path = false then errResult ("Path not found: " ++ showPath path)
  else
    okResult (.arr (((allPaths fs).filter
      (fun p => properUnder path p && ((p.length : Int) - (path.length : Int) ≤ depth))).map
        (fun p => .str (showPath p))))

/-- `read_file` from `file_tools.py`. -/
def read_file (fs : FS) (file_path : FsPath) : SResult :=
  if isFile fs file_path = false then
    errResult ("File not found: " ++ showPath file_path)
  else okResult (.str (readContent fs file_path))

/-- `write_file` from `file_tools.py`: create missing parent directories,
then write; returns the updated filesystem along with the payload. -/
def write_file (fs : FS) (file_path : FsPath) (content : String) : FS × SResult :=
  let fs1 :=
    if fsExists fs file_path.dropLast = false then addDirTree fs file_path.dropLast
    else fs
  (setFile fs1 file_path content, okResult (.bool true))

/-- `create_folder` from `file_tools.py`. -/
def create_folder (fs : FS) (folder_path : FsPath) : FS × SResult :=
  if fsExists fs folder_path then
    (fs, errResult ("Folder already exists: " ++ showPath folder_path))
  else (addDirTree fs folder_path, okResult (.bool true))

/-- `remove_folder` from `file_tools.py`: `shutil.rmtree` deletes the folder
and everything below it. -/
def remove_folder (fs : FS) (folder_path : FsPath) : FS × SResult :=
  if isDir fs folder_path = false then
    (fs, errResult ("Folder not found: " ++ showPath folder_path))
  else
    (⟨fs.files.filter (fun kv => properUnder folder_path kv.1 = false),
      fs.dirs.filter (fun d => properUnder folder_path d = false && d ≠ folder_path)⟩,
     okResult (.bool true))

/-- `remove_file` from `file_tools.py`. -/
def remove_file (fs : FS) (file_path : FsPath) : FS × SResult :=
  if isFile fs file_path = false then
    (fs, errResult ("File not found: " ++ showPath file_path))
  else
    ({ fs with files := fs.files.filter (fun kv => kv.1 ≠ file_path) },
     okResult (.bool true))

/-- `run_python_file` from `code_tools.py`: the subprocess is an oracle from
the script path to its (stdout, stderr); the exit code is ignored and the
payload is always a success once the file exists. -/
def run_python_file (exec : FsPath → String × String) (fs : FS) (file_path : FsPath) :
    SResult :=
  if isFile fs file_path = false then
    errResult ("File not found: " ++ showPath file_path)
  else
    okResult (.str (pyStrip
      ("Stdout:\n" ++ (exec file_path).1 ++ "\nStderr:\n" ++ (exec file_path).2)))

/-- `run_pytest_tests` from `code_tools.py`. -/
def run_pytest_tests (exec : FsPath → String × String) (fs : FS) (directory : FsPath) :
    SResult :=
  if isDir fs directory = false then
    errResult ("Directory not found: " ++ showPath directory)
  else
    okResult (.str (pyStrip
      ("Stdout:\n" ++ (exec directory).1 ++ "\nStderr:\n" ++ (exec directory).2)))

/-- `json_is_valid` from `json_tools.py`: `json.loads` inside a `try` whose
`except ValueError` (which also catches its subclass `JSONDecodeError`)
returns `False`; any exception outside the `ValueError` class would
propagate. -/
def json_is_valid (s : String) : Except PyExc Bool :=
  match pyJsonLoads s with
  | .ok _ => .ok true
  | .error e => if e.isValueErrorClass then .ok false else .error e

/-- A Python object as the decorator's annotation handling sees it: its
`__name__` attribute when it has one, and its `str()` rendering.  A class
annotation such as `str` or `dict` has `dunderName = some "str"`; a string
annotation has no `__name__` and `str()` of it is the string itself. -/
structure PyObjRepr where
  dunderName : Option String
  strRepr : String
  deriving DecidableEq, Repr

/-- The display name the decorator computes for an annotation:
`annotation.__name__ if hasattr(annotation, '__name__') else
str(annotation)`. -/
def annotDisplay (a : PyObjRepr) : String :=
  match a.dunderName with
  | some n => n
  | none => a.strRepr

/-- The reflection data of a decorated function: `__name__`, `__doc__`, the
signature's parameters in declaration order with their annotation objects
(an unannotated parameter carries the `inspect._empty` sentinel class,
whose `__name__` is `"_empty"`), and the return annotation (`none` models
`inspect._empty`, which the code tests for explicitly). -/
structure PyFunction where
  funcName : String
  docstring : Option String
  params : List (String × PyObjRepr)
  returnAnnotation : Option PyObjRepr
  deriving DecidableEq, Repr

/-- Python `a or b` on an optional string: `None` and `""` are falsy. -/
def strOr (a : Option String) (b : String) : String :=
  match a with
  | some s => if s = "" then b else s
  | none => b

/-- Modelled from the spec: the `Tool` descriptor value (`tools/base.py` is
not under `src/`) — name, description, callable, (parameter, type-tag)
pairs and return-type tag, exactly the fields the decorator passes to its
constructor. -/
structure Tool where
  name : String
  description : String
  func : Json → Except PyExc Json
  arguments : List (String × String)
  outputs : String

/-- The `tool` decorator from `tools/decorator.py`: build a `Tool` whose
name is `name or func.__name__`, whose description is `description or
func.__doc__ or "No description provided."`, whose arguments are the
(parameter name, annotation display name) pairs in declaration order, and
whose outputs tag is `"No return annotation"` for a missing return
annotation and the annotation's display name otherwise. -/
def tool (name description : Option String) (f : PyFunction)
    (impl : Json → Except PyExc Json) : Tool :=
  { name := strOr name f.funcName,
    description := strOr description (strOr f.docstring "No description provided."),
    func := impl,
    arguments := f.params.map (fun pr => (pr.1, annotDisplay pr.2)),
    outputs :=
      match f.returnAnnotation with
      | none => "No return annotation"
      | some a => annotDisplay a }

/-!  Helper lemmas shared by the claim theorems. -/

theorem bumpIteration_iteration (run : AgentState → AgentState)
    (hrun : ∀ s, (run s).iteration = s.iteration) (s : AgentState) :
    (bumpIteration (run s)).iteration = s.iteration + 1 := by
  simp [bumpIteration, hrun s]

theorem iterLoop_count_le (run : AgentState → AgentState) (maxIter : Nat)
    (hrun : ∀ s, (run s).iteration = s.iteration) :
    ∀ fuel s, (iterLoop run maxIter fuel s).2 ≤ maxIter - s.iteration := by
  intro fuel
  induction fuel with
  | zero => intro s; simp [iterLoop]
  | succ fuel ih =>
      intro s
      by_cases h : s.is_finished = false ∧ s.iteration < maxIter
      · rw [iterLoop, if_pos h]
        have h2 := ih (bumpIteration (run s))
        rw [bumpIteration_iteration run hrun s] at h2
        have := h.2
        simp only []
        omega
      · rw [iterLoop, if_neg h]
        simp

theorem iterLoop_iteration_eq (run : AgentState → AgentState) (maxIter : Nat)
    (hrun : ∀ s, (run s).iteration = s.iteration) :
    ∀ fuel s, (iterLoop run maxIter fuel s).1.iteration
      = s.iteration + (iterLoop run maxIter fuel s).2 := by
  intro fuel
  induction fuel with
  | zero => intro s; simp [iterLoop]
  | succ fuel ih =>
      intro s
      by_cases h : s.is_finished = false ∧ s.iteration < maxIter
      · rw [iterLoop, if_pos h]
        have h2 := ih (bumpIteration (run s))
        rw [bumpIteration_iteration run hrun s] at h2
        simp only []
        omega
      · rw [iterLoop, if_neg h]
        simp

theorem iterLoop_exit (run : AgentState → AgentState) (maxIter : Nat)
    (hrun : ∀ s, (run s).iteration = s.iteration) :
    ∀ fuel s, maxIter < s.iteration + fuel →
      (iterLoop run maxIter fuel s).1.is_finished = true
        ∨ maxIter ≤ (iterLoop run maxIter fuel s).1.iteration := by
  intro fuel
  induction fuel with
  | zero =>
      intro s hlt
      right
      show maxIter ≤ s.iteration
      omega
  | succ fuel ih =>
      intro s hlt
      by_cases h : s.is_finished = false ∧ s.iteration < maxIter
      · rw [iterLoop, if_pos h]
        have h2 := ih (bumpIteration (run s))
        rw [bumpIteration_iteration run hrun s] at h2
        exact h2 (by omega)
      · rw [iterLoop, if_neg h]
        rcases Decidable.not_and_iff_or_not.mp h with hfin | hit
        · left
          show s.is_finished = true
          simpa using hfin
        · right
          show maxIter ≤ s.iteration
          omega

theorem iterLoop_fuel_congr (run : AgentState → AgentState) (maxIter : Nat)
    (hrun : ∀ s, (run s).iteration = s.iteration) :
    ∀ fuel fuel' s, maxIter < s.iteration + fuel → maxIter < s.iteration + fuel' →
      iterLoop run maxIter fuel s = iterLoop run maxIter fuel' s := by
  intro fuel
  induction fuel with
  | zero =>
      intro fuel' s h _
      cases fuel' with
      | zero => rfl
      | succ fuel' =>
          rw [iterLoop, iterLoop, if_neg]
          intro hc
          omega
  | succ fuel ih =>
      intro fuel' s h h'
      cases fuel' with
      | zero =>
          rw [iterLoop, iterLoop, if_neg]
          intro hc
          omega
      | succ fuel' =>
          by_cases hc : s.is_finished = false ∧ s.iteration < maxIter
          · rw [iterLoop, iterLoop, if_pos hc, if_pos hc]
            have hnext := bumpIteration_iteration run hrun s
            rw [ih fuel' (bumpIteration (run s)) (by omega) (by omega)]
          · rw [iterLoop, iterLoop, if_neg hc, if_neg hc]

/-- C1: for every agent whose `run` leaves the iteration counter alone (as
both repository agents do) and every task input, `iterate` performs at most
`max_iterations` rounds of `run`; each round increments the counter by
exactly one, so the final counter equals the round count; the loop stops
exactly when the state is finished or the counter has reached the budget;
the fuel in the embedding never cuts the loop short (termination); and for
`max_iterations = 0` the state produced by `start_point` is returned
unmodified, in particular still unfinished. -/
theorem iterate_spec (run : AgentState → AgentState) (n : Nat) (s0 : AgentState)
    (hrun : ∀ s, (run s).iteration = s.iteration) (h0 : s0.iteration = 0) :
    (iterate run n s0).2 ≤ n
    ∧ (iterate run n s0).1.iteration = (iterate run n s0).2
    ∧ ((iterate run n s0).1.is_finished = true ∨ n ≤ (iterate run n s0).1.iteration)
    ∧ (∀ fuel, n + 1 ≤ fuel → iterLoop run n fuel s0 = iterate run n s0)
    ∧ (n = 0 → (iterate run n s0).1 = s0 ∧ (iterate run n s0).2 = 0)
    ∧ (n = 0 → s0.is_finished = false → (iterate run n s0).1.is_finished = false) := by
  have hcount := iterLoop_count_le run n hrun (n + 1) s0
  have hiter := iterLoop_iteration_eq run n hrun (n + 1) s0
  have hexit := iterLoop_exit run n hrun (n + 1) s0 (by omega)
  refine ⟨by rw [iterate]; omega, by rw [iterate]; omega, by rw [iterate]; exact hexit,
    ?_, ?_, ?_⟩
  · intro fuel hfuel
    exact iterLoop_fuel_congr run n hrun fuel (n + 1) s0 (by omega) (by omega)
  · intro hn
    subst hn
    rw [iterate, iterLoop, if_neg]
    · exact ⟨rfl, rfl⟩
    · intro hc
      omega
  · intro hn hfin
    subst hn
    rw [iterate, iterLoop, if_neg]
    · exact hfin
    · intro hc
      omega

/-- A backend stub whose responses carry no content and no tool calls. -/
def dummyLlm : LLM := fun _ => ⟨none, none⟩

theorem runV1_preserves_iteration (reg : ToolRegistry) (llm : LLM) (s : AgentState) :
    (runV1 reg llm s).iteration = s.iteration := by
  rw [runV1]
  by_cases h : v1Finished ((llm s.messages).content.getD "")
  · simp [h, addMessage]
  · simp [h, addMessage]

theorem runV2_preserves_iteration (reg : ToolRegistry) (llm : LLM) (s : AgentState) :
    (runV2 reg llm s).iteration = s.iteration := by
  rw [runV2]
  by_cases h : v2Finished ((llm s.messages).content.getD "")
  · simp [h, addMessage]
  · simp [h, addMessage]

/-- C1 witness: the simple agent with a silent backend and budget 2 runs
exactly twice and stops. -/
theorem iterate_spec_witness :
    (iterate (runV1 ([] : ToolRegistry) dummyLlm) 2 (initialTemplate "sys")).2 ≤ 2 :=
  (iterate_spec (runV1 ([] : ToolRegistry) dummyLlm) 2 (initialTemplate "sys")
    (runV1_preserves_iteration ([] : ToolRegistry) dummyLlm) rfl).1

theorem call_tool_role_id (reg : ToolRegistry) (tc : ToolCall) :
    (call_tool reg tc).role = "tool" ∧ (call_tool reg tc).tool_call_id = some tc.id := by
  cases h : callToolBody reg tc <;> simp [call_tool, h]

/-- C2: for every tool-call request carrying an id, `call_tool` returns
exactly one message with role `"tool"` and `tool_call_id` equal to the
request's id; the content is the stringified tool result when parsing,
lookup and invocation all succeed, and an error description when the
argument payload does not parse, the tool name is unregistered, or the tool
itself raises — no exception escapes. -/
theorem call_tool_spec (reg : ToolRegistry) (tc : ToolCall) :
    (call_tool reg tc).role = "tool"
    ∧ (call_tool reg tc).tool_call_id = some tc.id
    ∧ (∀ e, pyJsonLoads tc.function.arguments = .error e →
        (call_tool reg tc).content = some ("Error executing tool: " ++ e.msg))
    ∧ (∀ args, pyJsonLoads tc.function.arguments = .ok args →
        regGet reg tc.function.name = none →
        (call_tool reg tc).content
          = some ("Error executing tool: " ++ ("Tool " ++ tc.function.name ++ " not found")))
    ∧ (∀ f fields r, pyJsonLoads tc.function.arguments = .ok (.obj fields) →
        regGet reg tc.function.name = some f → f (.obj fields) = .ok r →
        (call_tool reg tc).content = some (pyStr r))
    ∧ (∀ f fields e, pyJsonLoads tc.function.arguments = .ok (.obj fields) →
        regGet reg tc.function.name = some f → f (.obj fields) = .error e →
        (call_tool reg tc).content = some ("Error executing tool: " ++ e.msg)) := by
  refine ⟨(call_tool_role_id reg tc).1, (call_tool_role_id reg tc).2, ?_, ?_, ?_, ?_⟩
  · intro e he
    simp [call_tool, callToolBody, he]
  · intro args hargs hnone
    cases args <;> simp [call_tool, callToolBody, hargs, hnone, PyExc.msg]
  · intro f fields r hargs hsome hres
    simp [call_tool, callToolBody, hargs, hsome, hres]
  · intro f fields e hargs hsome hres
    simp [call_tool, callToolBody, hargs, hsome, hres]

/-- A request for an unregistered tool. -/
def demoTc : ToolCall := ⟨"call_1", ⟨"foo", "\x7b\x7d"⟩⟩

/-- C2 witness: dispatching `foo` against an empty registry yields the
tool-not-found error message. -/
theorem call_tool_spec_witness :
    (call_tool ([] : ToolRegistry) demoTc).content
      = some "Error executing tool: Tool foo not found" := by
  have h := (call_tool_spec ([] : ToolRegistry) demoTc).2.2.2.1 (Json.obj []) rfl rfl
  rw [h]
  rfl

/-- C3: after each round, the new history is the (agent-specific) retained
part of the old history, then the assistant message, then exactly one tool
message per requested call, in request order, each answering its request's
id — so no request is left unanswered before the next generation call. -/
theorem runs_answer_every_tool_call (reg : ToolRegistry) (llm : LLM) (s : AgentState) :
    ((runV1 reg llm s).messages
      = s.messages
        ++ [⟨"assistant", (llm s.messages).content, none, (llm s.messages).tool_calls⟩]
        ++ ((llm s.messages).tool_calls.getD []).map (call_tool reg))
    ∧ ((runV2 reg llm s).messages
      = s.messages.filter keepPersistent
        ++ [⟨"assistant", some ((llm s.messages).content.getD ""), none,
             some ((llm s.messages).tool_calls.getD [])⟩]
        ++ ((llm s.messages).tool_calls.getD []).map (call_tool reg))
    ∧ ((((llm s.messages).tool_calls.getD []).map (call_tool reg)).length
        = ((llm s.messages).tool_calls.getD []).length)
    ∧ (∀ i, ((((llm s.messages).tool_calls.getD []).map (call_tool reg)).get? i).map
          Message.tool_call_id
        = (((llm s.messages).tool_calls.getD []).get? i).map (fun tc => some tc.id))
    ∧ (∀ m ∈ ((llm s.messages).tool_calls.getD []).map (call_tool reg), m.role = "tool") := by
  refine ⟨?_, ?_, by simp, ?_, ?_⟩
  · simp only [runV1, addMessage]
    split <;> simp
  · simp only [runV2, addMessage]
    split <;> simp
  · intro i
    rw [List.get?_map]
    cases h : ((llm s.messages).tool_calls.getD []).get? i with
    | none => simp
    | some tc => simp [(call_tool_role_id reg tc).2]
  · intro m hm
    obtain ⟨tc, _, rfl⟩ := List.mem_map.mp hm
    exact (call_tool_role_id reg tc).1

/-- A backend response requesting one call of the unregistered tool. -/
def c3Llm : LLM := fun _ => ⟨some "calling foo", some [demoTc]⟩

/-- C3 witness: one requested call produces a history of system, user-free
template, assistant and exactly one tool message. -/
theorem runs_answer_every_tool_call_witness :
    (runV1 ([] : ToolRegistry) c3Llm (initialTemplate "sys")).messages.length = 3 := by
  have h := (runs_answer_every_tool_call ([] : ToolRegistry) c3Llm (initialTemplate "sys")).1
  rw [h]
  rfl

/-- A backend response whose content is English prose containing the two
trigger words of the simple agent's substring finish test. -/
def c4Llm : LLM := fun _ => ⟨some "finished message", none⟩

/-- The fenced completion payload from the specification's example. -/
def exampleContent : String :=
  "```json\n\x7b\"finished\": true, \"message\": \"ok\"\x7d\n```"

/-- A backend response carrying the example payload and no tool calls. -/
def exampleLlm : LLM := fun _ => ⟨some exampleContent, none⟩

/-- C4 counterexample: on the content `"finished message"`, which does not
parse as structured data at all, `SimpleUnitTesterAgent.run` finishes —
its predicate is a substring test, not the fenced-JSON parse the claim
describes, which is used only by the scratchpad agent. -/
theorem finish_pred_counterexample :
    v1Finished "finished message" = true
    ∧ (runV1 ([] : ToolRegistry) c4Llm (initialTemplate "sys")).is_finished = true
    ∧ (pyJsonLoads (stripFenceLines (pyStrip "finished message"))).isOk = false
    ∧ v2Finished "finished message" = false := by
  decide

/-- C4 as amended: the JSON finish predicate is the one of
`ScratchpadUnitTesterAgent.run`: it is true exactly when the content, after
stripping and removing fenced-code markers, parses as an object whose
`"finished"` field is the boolean `true`; parse failures and non-objects
never raise and count as "not finished"; the fenced example makes it true
and that round halts after appending the assistant message with no tool
dispatch.  `SimpleUnitTesterAgent.run` instead finishes exactly when the
lowercased content contains the substrings `"finished"` and `"message"`. -/
theorem finish_pred_spec :
    (∀ reg llm s, (runV2 reg llm s).is_finished
      = (s.is_finished || v2Finished ((llm s.messages).content.getD "")))
    ∧ (∀ c fields, pyJsonLoads (stripFenceLines (pyStrip c)) = .ok (.obj fields) →
        Json.objGetLast fields "finished" = some (.bool true) → v2Finished c = true)
    ∧ (∀ c, v2Finished c = true →
        ∃ fields, pyJsonLoads (stripFenceLines (pyStrip c)) = .ok (.obj fields)
          ∧ Json.objGetLast fields "finished" = some (.bool true))
    ∧ (∀ c e, pyJsonLoads (stripFenceLines (pyStrip c)) = .error e → v2Finished c = false)
    ∧ (∀ c, checkStopBody c = .ok (v2Finished c)
        ∨ (∃ e, checkStopBody c = .error e ∧ v2Finished c = false))
    ∧ (v2Finished exampleContent = true)
    ∧ (∀ reg s, (runV2 reg exampleLlm s).is_finished = true
        ∧ (runV2 reg exampleLlm s).messages
          = s.messages.filter keepPersistent
            ++ [⟨"assistant", some exampleContent, none, some []⟩])
    ∧ (∀ reg llm s, (runV1 reg llm s).is_finished
      = (s.is_finished || v1Finished ((llm s.messages).content.getD ""))) := by
  have hex : v2Finished exampleContent = true := by decide
  refine ⟨?_, ?_, ?_, ?_, ?_, hex, ?_, ?_⟩
  · intro reg llm s
    simp only [runV2, addMessage]
    split <;> rename_i h <;> simp [h]
  · intro c fields h1 h2
    simp [v2Finished, checkStopBody, h1, h2]
  · intro c hv
    rcases h : pyJsonLoads (stripFenceLines (pyStrip c)) with e | d
    · simp [v2Finished, checkStopBody, h] at hv
    · cases d <;> simp [v2Finished, checkStopBody, h] at hv
      exact ⟨_, rfl, hv⟩
  · intro c e h
    simp [v2Finished, checkStopBody, h]
  · intro c
    rcases h : checkStopBody c with e | b
    · right; exact ⟨e, rfl, by simp [v2Finished, h]⟩
    · left; simp [v2Finished, h]
  · intro reg s
    constructor
    · simp only [runV2, addMessage, exampleLlm]
      simp [hex]
    · simp only [runV2, addMessage, exampleLlm]
      simp [hex]
  · intro reg llm s
    simp only [runV1, addMessage]
    split <;> rename_i h <;> simp [h]

/-- C4 witness: a bare (unfenced) object with a true `"finished"` field
satisfies the scratchpad predicate. -/
theorem finish_pred_spec_witness :
    v2Finished "\x7b\"finished\": true\x7d" = true :=
  finish_pred_spec.2.1 "\x7b\"finished\": true\x7d" [("finished", .bool true)]
    rfl rfl

/-- C5: the adapter's `generate` never propagates a backend rejection of a
tool-call shape: a `BadRequestError` whose error code is
`tool_use_failed` is converted into a plain assistant message describing
the failure; every other `BadRequestError` is re-raised as is, other
exceptions propagate uncaught, and a successful provider call never
raises. -/
theorem groq_generate_spec :
    (∀ message, groqGenerate (.error (.badRequest (some "tool_use_failed") message))
      = .ok { role := "assistant",
              content := some
                ("System Error: The model failed to generate a valid tool call. Raw Error: "
                  ++ pyStrOfOpt message),
              tool_calls := none })
    ∧ (∀ code message, code ≠ some "tool_use_failed" →
        groqGenerate (.error (.badRequest code message)) = .error (.badRequest code message))
    ∧ (∀ d, groqGenerate (.error (.apiOther d)) = .error (.apiOther d))
    ∧ (∀ msg, ∃ m, groqGenerate (.ok msg) = .ok m ∧ m.role = msg.role
        ∧ m.content = msg.content) := by
  refine ⟨?_, ?_, ?_, ?_⟩
  · intro message
    simp [groqGenerate]
  · intro code message h
    simp [groqGenerate, h]
  · intro d
    rfl
  · intro msg
    exact ⟨_, rfl, rfl, rfl⟩

/-- C5 witness: an authentication-style bad request is re-raised
unchanged. -/
theorem groq_generate_spec_witness :
    groqGenerate (.error (.badRequest (some "invalid_api_key") none))
      = .error (.badRequest (some "invalid_api_key") none) :=
  groq_generate_spec.2.1 (some "invalid_api_key") none (by decide)

/-- A history that already holds an assistant message from an earlier
round. -/
def c6State : AgentState :=
  ⟨[chatMsg "system" (some "sys"), chatMsg "user" (some "q"),
    chatMsg "assistant" (some "old")], false, 0⟩

/-- A backend response with plain content and no tool calls. -/
def c6Llm : LLM := fun _ => ⟨some "hi", none⟩

/-- C6 counterexample: the scratchpad `run` is not append-only — the
assistant message present before the round is gone from the history after
it. -/
theorem history_counterexample :
    chatMsg "assistant" (some "old") ∈ c6State.messages
    ∧ chatMsg "assistant" (some "old") ∉ (runV2 ([] : ToolRegistry) c6Llm c6State).messages := by
  decide

/-- C6 as amended: `add_message`, both `start_point`s and the simple
agent's `run` only ever append to the history; the scratchpad `run` first
removes every message whose role is neither system nor user (keeping the
survivors in their original order, as `filter` does) and from then on only
appends. -/
theorem history_append_spec :
    (∀ s role c tcid tcs,
      (addMessage s role c tcid tcs).messages = s.messages ++ [⟨role, c, tcid, tcs⟩])
    ∧ (∀ inital q, (startPointV1 inital q).2.messages
        = inital.messages ++ [chatMsg "user" (some q)])
    ∧ (∀ inital q, (startPointV2 inital q).2.messages
        = inital.messages ++ [chatMsg "user" (some q)])
    ∧ (∀ reg llm s, ∃ tail, (runV1 reg llm s).messages = s.messages ++ tail)
    ∧ (∀ reg llm s, ∃ tail,
        (runV2 reg llm s).messages = s.messages.filter keepPersistent ++ tail) := by
  refine ⟨fun s role c tcid tcs => rfl, ?_, ?_, ?_, ?_⟩
  · intro inital q
    simp [startPointV1, addMessage, chatMsg]
  · intro inital q
    simp [startPointV2, addMessage, chatMsg]
  · intro reg llm s
    refine ⟨[⟨"assistant", (llm s.messages).content, none, (llm s.messages).tool_calls⟩]
      ++ ((llm s.messages).tool_calls.getD []).map (call_tool reg), ?_⟩
    simp only [runV1, addMessage]
    split <;> simp
  · intro reg llm s
    refine ⟨[⟨"assistant", some ((llm s.messages).content.getD ""), none,
        some ((llm s.messages).tool_calls.getD [])⟩]
      ++ ((llm s.messages).tool_calls.getD []).map (call_tool reg), ?_⟩
    simp only [runV2, addMessage]
    split <;> simp

/-- `SimpleUnitTesterAgent`'s task entry point with the shared-state
aliasing made explicit: `start_point` takes `self.inital_state` itself (no
copy), so the state the loop mutates *is* the stored template; the first
component is the template after the call, the second the returned final
state — the same object. -/
def iterateSharedV1 (reg : ToolRegistry) (llm : LLM) (n : Nat) (stored : AgentState)
    (q : String) : AgentState × AgentState :=
  let final := (iterate (runV1 reg llm) n (startPointV1 stored q).2).1
  (final, final)

/-- C7 counterexample: with `max_iterations = 0`, a second task invocation
on the same simple agent still sees the first task's user message — the
state is shared between invocations, not fresh. -/
theorem fresh_state_counterexample :
    (iterateSharedV1 ([] : ToolRegistry) dummyLlm 0
        (iterateSharedV1 ([] : ToolRegistry) dummyLlm 0 (initialTemplate "sys") "q1").1
        "q2").2.messages
      = [chatMsg "system" (some "sys"), chatMsg "user" (some "q1"),
         chatMsg "user" (some "q2")]
    ∧ (iterateSharedV1 ([] : ToolRegistry) dummyLlm 0
        (iterateSharedV1 ([] : ToolRegistry) dummyLlm 0 (initialTemplate "sys") "q1").1
        "q2").2.messages
      ≠ [chatMsg "system" (some "sys"), chatMsg "user" (some "q2")] := by
  decide

/-- C7 as amended: the scratchpad agent's `start_point` deep-copies the
template, so each task invocation gets a fresh state holding exactly the
seeded system and user messages with `is_finished` false and iteration 0,
and leaves the template untouched; the simple agent's `start_point` instead
returns the shared template itself, mutating it, so its successive
invocations are not independent. -/
theorem startPointV2_fresh (sysPrompt q1 q2 : String) :
    (startPointV2 (initialTemplate sysPrompt) q1).1 = initialTemplate sysPrompt
    ∧ (startPointV2 (initialTemplate sysPrompt) q1).2.messages
        = [chatMsg "system" (some sysPrompt), chatMsg "user" (some q1)]
    ∧ (startPointV2 (initialTemplate sysPrompt) q1).2.is_finished = false
    ∧ (startPointV2 (initialTemplate sysPrompt) q1).2.iteration = 0
    ∧ (startPointV2 (startPointV2 (initialTemplate sysPrompt) q1).1 q2).2.messages
        = [chatMsg "system" (some sysPrompt), chatMsg "user" (some q2)]
    ∧ (startPointV2 (startPointV2 (initialTemplate sysPrompt) q1).1 q2).2.is_finished = false
    ∧ (startPointV2 (startPointV2 (initialTemplate sysPrompt) q1).1 q2).2.iteration = 0
    ∧ (startPointV1 (initialTemplate sysPrompt) q1).1 ≠ initialTemplate sysPrompt := by
  refine ⟨rfl, rfl, rfl, rfl, rfl, rfl, rfl, ?_⟩
  intro h
  have hm := congrArg AgentState.messages h
  simp [startPointV1, addMessage, initialTemplate, chatMsg] at hm

/-- The payload contract of C8: a `success` boolean, a `result` exactly on
success and an `error` exactly on failure. -/
def shapeOK (r : SResult) : Prop :=
  (r.success = true → r.result.isSome = true ∧ r.error = none)
  ∧ (r.success = false → r.error.isSome = true ∧ r.result = none)

/-- C8: every builtin file and code tool is total on the modelled
filesystem and returns the `{success, result|error}` payload; in
particular `read_file` fails with a `File not found` error exactly on
paths that do not name an existing file. -/
theorem builtin_tools_total :
    (∀ fs p d, shapeOK (list_directory_files fs p d))
    ∧ (∀ fs p, shapeOK (read_file fs p))
    ∧ (∀ fs p c, shapeOK (write_file fs p c).2)
    ∧ (∀ fs p, shapeOK (create_folder fs p).2)
    ∧ (∀ fs p, shapeOK (remove_folder fs p).2)
    ∧ (∀ fs p, shapeOK (remove_file fs p).2)
    ∧ (∀ ex fs p, shapeOK (run_python_file ex fs p))
    ∧ (∀ ex fs p, shapeOK (run_pytest_tests ex fs p))
    ∧ (∀ fs p, isFile fs p = false →
        read_file fs p = errResult ("File not found: " ++ showPath p)) := by
  refine ⟨?_, ?_, ?_, ?_, ?_, ?_, ?_, ?_, ?_⟩
  · intro fs p d
    rw [list_directory_files]
    split <;> simp [shapeOK, okResult, errResult]
  · intro fs p
    rw [read_file]
    split <;> simp [shapeOK, okResult, errResult]
  · intro fs p c
    rw [write_file]
    simp [shapeOK, okResult]
  · intro fs p
    rw [create_folder]
    split <;> simp [shapeOK, okResult, errResult]
  · intro fs p
    rw [remove_folder]
    split <;> simp [shapeOK, okResult, errResult]
  · intro fs p
    rw [remove_file]
    split <;> simp [shapeOK, okResult, errResult]
  · intro ex fs p
    rw [run_python_file]
    split <;> simp [shapeOK, okResult, errResult]
  · intro ex fs p
    rw [run_pytest_tests]
    split <;> simp [shapeOK, okResult, errResult]
  · intro fs p h
    rw [read_file, if_pos h]

/-- C8 witness: reading a missing file on the empty filesystem reports the
not-found error payload. -/
theorem builtin_tools_total_witness :
    read_file ⟨[], []⟩ ["missing.txt"] = errResult "File not found: missing.txt" := by
  have h := builtin_tools_total.2.2.2.2.2.2.2.2 ⟨[], []⟩ ["missing.txt"] rfl
  rw [h]
  rfl

theorem pyJsonLoads_error_class (s : String) (e : PyExc)
    (h : pyJsonLoads s = .error e) : e.isValueErrorClass = true := by
  rcases hp : parseValue (s.length + 1) s.data with _ | ⟨v, rest⟩
  · simp only [pyJsonLoads, hp] at h
    cases h
    rfl
  · simp only [pyJsonLoads, hp] at h
    by_cases he : (skipWs rest).isEmpty
    · rw [if_pos he] at h
      cases h
    · rw [if_neg he] at h
      cases h
      rfl

/-- C9: `json_is_valid` never raises — a `json.loads` failure is always a
`JSONDecodeError`, a subclass of the caught `ValueError` — and returns
`True` exactly when the string parses as JSON and `False` otherwise. -/
theorem json_is_valid_spec (s : String) :
    (∃ b, json_is_valid s = .ok b)
    ∧ (json_is_valid s = .ok true ↔ ∃ v, pyJsonLoads s = .ok v)
    ∧ (json_is_valid s = .ok false ↔ ∃ e, pyJsonLoads s = .error e) := by
  rcases h : pyJsonLoads s with e | v
  · have hc := pyJsonLoads_error_class s e h
    refine ⟨⟨false, by simp [json_is_valid, h, hc]⟩, ?_, ?_⟩
    · simp [json_is_valid, h, hc]
    · simp [json_is_valid, h, hc]
  · refine ⟨⟨true, by simp [json_is_valid, h]⟩, ?_, ?_⟩
    · simp [json_is_valid, h]
    · simp [json_is_valid, h]

/-- A return annotation that is the literal string `"No return
annotation"`: legal Python (string annotations carry no `__name__` and
`str()` of one is the string itself). -/
def c10Func : PyFunction :=
  ⟨"f", none, [], some ⟨none, "No return annotation"⟩⟩

/-- A callable placeholder for decorator inputs. -/
def noImpl : Json → Except PyExc Json := fun _ => .error (.otherExc "not callable")

/-- C10 counterexample: the descriptor's output tag equals `"No return
annotation"` for a function that *does* have a return annotation, so the
tag equals the placeholder not exactly when the annotation is absent. -/
theorem tool_decorator_counterexample :
    (tool none none c10Func noImpl).outputs = "No return annotation"
    ∧ c10Func.returnAnnotation ≠ none := by
  exact ⟨rfl, by decide⟩

/-- C10 as amended: the descriptor's name is the supplied name when that is
non-empty and the function's `__name__` otherwise (Python `or` also treats
an empty supplied string as absent); the description likewise falls back
from a non-empty supplied description to a non-empty docstring to
`"No description provided."`; the argument list records (parameter name,
annotation display name) pairs in declaration order; and the output tag is
`"No return annotation"` when the return annotation is absent, else the
annotation's display name — which coincides with the placeholder only when
that display name is itself the placeholder text. -/
theorem tool_decorator_spec (nm ds : Option String) (f : PyFunction)
    (impl : Json → Except PyExc Json) :
    (nm = none → (tool nm ds f impl).name = f.funcName)
    ∧ (nm = some "" → (tool nm ds f impl).name = f.funcName)
    ∧ (∀ n, nm = some n → n ≠ "" → (tool nm ds f impl).name = n)
    ∧ ((ds = none ∨ ds = some "") → f.docstring = none →
        (tool nm ds f impl).description = "No description provided.")
    ∧ ((ds = none ∨ ds = some "") → f.docstring = some "" →
        (tool nm ds f impl).description = "No description provided.")
    ∧ ((ds = none ∨ ds = some "") → ∀ doc, f.docstring = some doc → doc ≠ "" →
        (tool nm ds f impl).description = doc)
    ∧ (∀ d, ds = some d → d ≠ "" → (tool nm ds f impl).description = d)
    ∧ (∀ i, (tool nm ds f impl).arguments.get? i
        = (f.params.get? i).map (fun pr => (pr.1, annotDisplay pr.2)))
    ∧ (f.returnAnnotation = none → (tool nm ds f impl).outputs = "No return annotation")
    ∧ (∀ a, f.returnAnnotation = some a → (tool nm ds f impl).outputs = annotDisplay a) := by
  refine ⟨?_, ?_, ?_, ?_, ?_, ?_, ?_, ?_, ?_, ?_⟩
  · intro h
    simp [tool, strOr, h]
  · intro h
    simp [tool, strOr, h]
  · intro n h hne
    simp [tool, strOr, h, hne]
  · intro h hd
    rcases h with h | h <;> simp [tool, strOr, h, hd]
  · intro h hd
    rcases h with h | h <;> simp [tool, strOr, h, hd]
  · intro h doc hd hne
    rcases h with h | h <;> simp [tool, strOr, h, hd, hne]
  · intro d h hne
    simp [tool, strOr, h, hne]
  · intro i
    simp [tool, List.get?_map]
  · intro h
    simp [tool, h]
  · intro a h
    simp [tool, h]

/-- The reflection data of `json_is_valid` as the decorator sees it. -/
def jsonIsValidFunc : PyFunction :=
  ⟨"json_is_valid", some "Check if the input string is valid JSON.",
   [("s", ⟨some "str", "<class str>"⟩)], some ⟨some "bool", "<class bool>"⟩⟩

/-- C10 witness: with no explicit name, the descriptor takes the
function's `__name__`. -/
theorem tool_decorator_spec_witness :
    (tool none none jsonIsValidFunc noImpl).name = "json_is_valid" :=
  (tool_decorator_spec none none jsonIsValidFunc noImpl).1 rfl

end Miniminds
